import Mathlib

/-!
Verification of the hot-reloadable geo-database manager in
`internal/geodb/geodb.go` (package `geodb` of burakcan/ipburack).

The Go code is shallowly embedded: each Go function that the claims touch
becomes a Lean definition of the same name, translated statement by
statement.  External collaborators are parameters:

* the MaxMind codec (`maxminddb.Open`, `Reader.Lookup(ip).Decode`) is an
  abstract `openDB`/`Reader.decode` pair supplied through `Env`;
* the transport (`http.Get`) is an abstract `fetch` function in `Env`;
* the filesystem is an explicit association list `FS` from paths to file
  contents, with `os.Create`+`io.Copy`, `os.Remove` and `os.Rename`
  modelled as `FS.set`, `FS.remove` and `FS.rename`;
* `net/netip.ParseAddr` (Go standard library) is modelled by `parseAddr`
  below, following netip's structure: the first `.`/`:`/`%` in the input
  selects the IPv4 form, the IPv6 form, or a parse failure.

Go's single `error` interface type becomes the inductive `Err`; each
distinct error construction site in geodb.go has its own constructor.
-/

/-- Every error value geodb.go can construct, one constructor per
construction site.  `lookupFailed` is `fmt.Errorf("lookup failed: %w", err)`,
`notLoaded` is `errors.New(tier ++ " database not loaded")`,
`badStatus` is `fmt.Errorf("download failed with status: %d", code)`,
`invalidDownload` is `fmt.Errorf("downloaded file is invalid: %w", err)`.
`decodeErr`, `openErr`, `netErr`, `copyErr` stand for the errors returned by
the codec's decode, the codec's open, `http.Get`, and `io.Copy`. -/
inductive Err where
  | invalidIP : Err
  | ipNotFound : Err
  | notLoaded (tier : String) : Err
  | lookupFailed (inner : Err) : Err
  | decodeErr (msg : String) : Err
  | openErr (msg : String) : Err
  | netErr (msg : String) : Err
  | badStatus (code : Nat) : Err
  | copyErr (msg : String) : Err
  | invalidDownload (inner : Err) : Err
deriving DecidableEq

/-- A parsed network address (`netip.Addr`): the address family plus the
raw numeric components (octets for IPv4, 16-bit groups for IPv6). -/
structure Addr where
  is4 : Bool
  bytes : List Nat
deriving DecidableEq

/-- Split a character list at every occurrence of a separator character
(structural recursion, so that concrete parses reduce in the kernel). -/
def splitOnChar (sep : Char) : List Char → List (List Char)
  | [] => [[]]
  | c :: rest =>
    if c = sep then [] :: splitOnChar sep rest
    else
      match splitOnChar sep rest with
      | [] => [[c]]
      | h :: t => (c :: h) :: t

/-- Split at the first occurrence of a double colon, when there is one. -/
def splitOnDoubleColon : List Char → Option (List Char × List Char)
  | ':' :: ':' :: rest => some ([], rest)
  | c :: rest => (splitOnDoubleColon rest).map (fun p => (c :: p.1, p.2))
  | [] => none

/-- Whether a character list still contains a double colon. -/
def hasDoubleColon : List Char → Bool
  | ':' :: ':' :: _ => true
  | _ :: rest => hasDoubleColon rest
  | [] => false

/-- One dotted-quad field: 1 to 3 digits, value at most 255, no leading
zero (netip rejects leading zeros in IPv4 fields). -/
def parseV4Octet (cs : List Char) : Option Nat :=
  if cs.length = 0 ∨ 3 < cs.length then none
  else if ¬ cs.all Char.isDigit then none
  else if 1 < cs.length ∧ cs.head? = some '0' then none
  else
    let v := cs.foldl (fun a c => a * 10 + (c.toNat - 48)) 0
    if v ≤ 255 then some v else none

/-- `netip.ParseAddr` on a string containing a dot: exactly four octets. -/
def parseIPv4 (cs : List Char) : Option Addr :=
  match (splitOnChar '.' cs).mapM parseV4Octet with
  | some [a, b, c, d] => some { is4 := true, bytes := [a, b, c, d] }
  | _ => none

/-- Value of one hexadecimal digit. -/
def hexDigitVal (c : Char) : Option Nat :=
  if c.isDigit then some (c.toNat - 48)
  else if 'a' ≤ c ∧ c ≤ 'f' then some (c.toNat - 87)
  else if 'A' ≤ c ∧ c ≤ 'F' then some (c.toNat - 55)
  else none

/-- One IPv6 group: 1 to 4 hex digits. -/
def parseHexGroup (cs : List Char) : Option Nat :=
  if cs.length = 0 ∨ 4 < cs.length then none
  else cs.foldlM (fun a c => (hexDigitVal c).map (fun d => a * 16 + d)) 0

/-- Colon-separated IPv6 groups; the final group may be an embedded
dotted-quad IPv4 address, contributing two 16-bit groups. -/
def parseGroupList : List (List Char) → Option (List Nat)
  | [] => some []
  | [last] =>
    if last.contains '.' then
      match parseIPv4 last with
      | some a =>
        match a.bytes with
        | [x, y, z, w] => some [x * 256 + y, z * 256 + w]
        | _ => none
      | none => none
    else (parseHexGroup last).map (fun v => [v])
  | g :: rest => do
    let v ← parseHexGroup g
    let vs ← parseGroupList rest
    some (v :: vs)

/-- Groups of one side of a `::`; the empty list stands for no groups. -/
def parseGroups (cs : List Char) : Option (List Nat) :=
  if cs.isEmpty then some [] else parseGroupList (splitOnChar ':' cs)

/-- `netip.ParseAddr` on a string containing a colon: at most one `::`
standing for at least one zero group, eight groups in total. -/
def parseIPv6 (cs : List Char) : Option Addr :=
  match splitOnDoubleColon cs with
  | none =>
    match parseGroups cs with
    | some gs => if gs.length = 8 then some { is4 := false, bytes := gs } else none
    | none => none
  | some (l, r) =>
    if hasDoubleColon r then none
    else
      match parseGroups l, parseGroups r with
      | some gl, some gr =>
        if gl.length + gr.length ≤ 7 then
          some { is4 := false, bytes := gl ++ List.replicate (8 - gl.length - gr.length) 0 ++ gr }
        else none
      | _, _ => none

/-- Model of `net/netip.ParseAddr` (standard library collaborator): scan
for the first `.`, `:` or `%`; a dot selects the IPv4 form, a colon the
IPv6 form, a percent (zone with no address) and a separator-free string
fail to parse. -/
def parseAddr (s : String) : Option Addr :=
  match s.toList.find? (fun c => c == '.' || c == ':' || c == '%') with
  | some '.' => parseIPv4 s.toList
  | some ':' => parseIPv6 s.toList
  | _ => none

/-- The union of the MMDB fields the two Go record structs declare.
MaxMind decode of an address that is absent from the database succeeds
and leaves every field at its zero value — which is why geodb.go tests
`record.CountryCode == ""` after a successful decode. -/
structure MMRecord where
  country_code : String := ""
  city : String := ""
  postcode : String := ""
deriving DecidableEq

/-- An open decoder handle (`*maxminddb.Reader`): for each address,
`Lookup(ip).Decode(&record)` either fails or fills a record. -/
structure Reader where
  decode : Addr → Except Err MMRecord

/-- `CountryRecord` of geodb.go: the fields its maxminddb tags select. -/
structure CountryRecord where
  country_code : String
deriving DecidableEq

/-- `CityRecord` of geodb.go (latitude/longitude are declared in the Go
struct but never read by any code under verification; as floating-point
data they are left out of the embedding). -/
structure CityRecord where
  country_code : String
  city : String
  postcode : String
deriving DecidableEq

/-- Decidable equality of `Except` results, so that concrete lookup
outcomes can be checked by `decide`. -/
instance instDecEqExcept {ε α : Type} [DecidableEq ε] [DecidableEq α] :
    DecidableEq (Except ε α) := fun x y =>
  match x, y with
  | .ok a, .ok b =>
    if h : a = b then isTrue (by rw [h]) else isFalse (fun he => by cases he; exact h rfl)
  | .error a, .error b =>
    if h : a = b then isTrue (by rw [h]) else isFalse (fun he => by cases he; exact h rfl)
  | .ok _, .error _ => isFalse (fun he => by cases he)
  | .error _, .ok _ => isFalse (fun he => by cases he)

/-- Decoding into `CountryRecord`: only the `country_code` tag is filled. -/
def Reader.decodeCountry (r : Reader) (a : Addr) : Except Err CountryRecord :=
  (r.decode a).map (fun m => { country_code := m.country_code })

/-- Decoding into `CityRecord`. -/
def Reader.decodeCity (r : Reader) (a : Addr) : Except Err CityRecord :=
  (r.decode a).map
    (fun m => { country_code := m.country_code, city := m.city, postcode := m.postcode })

/-- `LookupResult` of geodb.go; `postal_code` is tagged `omitempty`, so
the empty string is its absent form. -/
structure LookupResult where
  country_code : String
  postal_code : String := ""
deriving DecidableEq

/-- `dbInstance` of geodb.go: one slot — the currently active handle
(`nil` before the first load), its on-disk path and its source URL.
The `sync.RWMutex` guards the `db` pointer; in this sequential embedding
each operation acts on the state as a whole. -/
structure DbInstance where
  db : Option Reader
  path : String
  url : String

/-- `GeoDB` of geodb.go restricted to the lookup-relevant state: the three
slots.  (`updateInterval`, `logger`, `cancel`, `wg` carry no lookup
state; the shutdown fields are modelled separately for `Stop`.) -/
structure GeoDB where
  country : DbInstance
  cityIPv4 : DbInstance
  cityIPv6 : DbInstance

/-- `New` of geodb.go: three slots with the given paths and URLs and no
handle loaded yet. -/
def New (countryPath countryURL cityIPv4Path cityIPv4URL cityIPv6Path cityIPv6URL : String) :
    GeoDB :=
  { country := { db := none, path := countryPath, url := countryURL }
    cityIPv4 := { db := none, path := cityIPv4Path, url := cityIPv4URL }
    cityIPv6 := { db := none, path := cityIPv6Path, url := cityIPv6URL } }

/-- `GeoDB.lookupCountry`: snapshot the country slot's handle; a missing
handle is `errors.New("country database not loaded")`; a decode error is
wrapped as `lookup failed`; an empty country code is `ErrIPNotFound`. -/
def GeoDB.lookupCountry (g : GeoDB) (ip : Addr) : Except Err LookupResult :=
  match g.country.db with
  | none => .error (.notLoaded "country")
  | some db =>
    match db.decodeCountry ip with
    | .error e => .error (.lookupFailed e)
    | .ok record =>
      if record.country_code = "" then .error .ipNotFound
      else .ok { country_code := record.country_code }

/-- `GeoDB.lookupCity`: choose the IPv4- or IPv6-tier city slot by the
address family, then proceed as in `lookupCountry`, additionally carrying
the postal code into the result. -/
def GeoDB.lookupCity (g : GeoDB) (ip : Addr) : Except Err LookupResult :=
  let inst := if ip.is4 then g.cityIPv4 else g.cityIPv6
  match inst.db with
  | none => .error (.notLoaded "city")
  | some db =>
    match db.decodeCity ip with
    | .error e => .error (.lookupFailed e)
    | .ok record =>
      if record.country_code = "" then .error .ipNotFound
      else .ok { country_code := record.country_code, postal_code := record.postcode }

/-- `GeoDB.Lookup`: parse, then try the preferred tier and fall back to
the other tier whenever the first attempt returned any error. -/
def GeoDB.Lookup (g : GeoDB) (ipStr : String) (useCity : Bool) : Except Err LookupResult :=
  match parseAddr ipStr with
  | none => .error .invalidIP
  | some ip =>
    if useCity then
      match g.lookupCity ip with
      | .ok result => .ok result
      | .error _ => g.lookupCountry ip
    else
      match g.lookupCountry ip with
      | .ok result => .ok result
      | .error _ => g.lookupCity ip

/-! ## Filesystem, transport and refresh path -/

/-- The local filesystem as an association list from paths to file
contents (first binding wins). -/
abbrev FS := List (String × String)

/-- Content of the file at a path, `none` when absent. -/
def FS.get : FS → String → Option String
  | [], _ => none
  | (k, v) :: rest, p => if k = p then some v else FS.get rest p

/-- Create or truncate-and-write the file at a path
(`os.Create` followed by `io.Copy`). -/
def FS.set : FS → String → String → FS
  | [], p, v => [(p, v)]
  | (k, w) :: rest, p, v => if k = p then (p, v) :: rest else (k, w) :: FS.set rest p v

/-- Delete the file at a path (`os.Remove`). -/
def FS.remove : FS → String → FS
  | [], _ => []
  | (k, w) :: rest, p => if k = p then FS.remove rest p else (k, w) :: FS.remove rest p

/-- Atomic replace of the destination by the source (`os.Rename`). -/
def FS.rename (fs : FS) (src dst : String) : FS :=
  match fs.get src with
  | none => fs
  | some v => (fs.remove src).set dst v

/-- An HTTP response as `downloadDB` consumes it: the status code, the
body, and whether reading the body fails partway through `io.Copy`. -/
structure HTTPResponse where
  status : Nat
  body : String
  truncated : Bool

/-- The two external collaborators of the refresh path: the transport
(`http.Get`) and the codec (`maxminddb.Open`, applied to the content
found at a path — `none` means the file is absent, and every failure of
`Open`, be the file absent, truncated or unrecognized, is an error
result of this function). -/
structure Env where
  fetch : String → Except Err HTTPResponse
  openDB : Option String → Except Err Reader

/-- Events `loadDB` performs on the slot, in program order. -/
inductive LoadEv where
  | swapped (old : Option Reader) (new : Reader)
  | closed (h : Reader)

/-- `GeoDB.loadDB`: open the file at the slot's path; on failure return
the error leaving the slot untouched; on success swap the new handle in
under the lock, then close the displaced handle if one existed. -/
def loadDB (env : Env) (fs : FS) (inst : DbInstance) :
    DbInstance × List LoadEv × Option Err :=
  match env.openDB (fs.get inst.path) with
  | .error e => (inst, [], some e)
  | .ok db =>
    let old := inst.db
    ({ inst with db := some db },
     .swapped old db :: (match old with | some o => [.closed o] | none => []),
     none)

/-- `GeoDB.downloadDB`: fetch the slot's URL; any status other than
`http.StatusOK` (200) is a failure; write the body to `path ++ ".tmp"`;
a failed copy removes the temporary file; validate the temporary file by
opening it with the codec, removing it on failure; only then atomically
rename it over the final path.  The slot's handle is never touched (the
returned instance is the argument). -/
def downloadDB (env : Env) (fs : FS) (inst : DbInstance) :
    DbInstance × FS × Option Err :=
  let tmpPath := inst.path ++ ".tmp"
  match env.fetch inst.url with
  | .error e => (inst, fs, some e)
  | .ok resp =>
    if resp.status ≠ 200 then (inst, fs, some (.badStatus resp.status))
    else
      let fs1 := fs.set tmpPath resp.body
      if resp.truncated then (inst, fs1.remove tmpPath, some (.copyErr "copy failed"))
      else
        match env.openDB (fs1.get tmpPath) with
        | .error e => (inst, fs1.remove tmpPath, some (.invalidDownload e))
        | .ok _testDB => (inst, fs1.rename tmpPath inst.path, none)

/-- One slot's step of the ticker branch of `updateLoop`: download, and
only if the download succeeded, load; either failure is logged (the
returned error) and the loop moves on. -/
def refreshSlot (env : Env) (fs : FS) (inst : DbInstance) :
    DbInstance × FS × Option Err :=
  match downloadDB env fs inst with
  | (inst1, fs1, some e) => (inst1, fs1, some e)
  | (inst1, fs1, none) =>
    match loadDB env fs1 inst1 with
    | (inst2, _evs, some e) => (inst2, fs1, some e)
    | (inst2, _evs, none) => (inst2, fs1, none)

/-- One full ticker cycle of `updateLoop`: the three slots are refreshed
in sequence — country, city-ipv4, city-ipv6 — and each slot's outcome is
logged; no outcome stops the iteration. -/
def updateCycle (env : Env) (fs : FS) (g : GeoDB) :
    GeoDB × FS × List (String × Option Err) :=
  let r1 := refreshSlot env fs g.country
  let r2 := refreshSlot env r1.2.1 g.cityIPv4
  let r3 := refreshSlot env r2.2.1 g.cityIPv6
  ({ country := r1.1, cityIPv4 := r2.1, cityIPv6 := r3.1 },
   r3.2.1,
   [("country", r1.2.2), ("city-ipv4", r2.2.2), ("city-ipv6", r3.2.2)])

/-- Whether `downloadDB` fails for a slot with this URL.  Every failure
condition of `downloadDB` — transport error, non-200 status, truncated
body, codec rejecting the payload — depends only on the environment and
the URL, never on the filesystem. -/
def downloadFails (env : Env) (url : String) : Bool :=
  match env.fetch url with
  | .error _ => true
  | .ok resp =>
    if resp.status ≠ 200 then true
    else if resp.truncated then true
    else
      match env.openDB (some resp.body) with
      | .error _ => true
      | .ok _ => false

/-! ## Shutdown (`Stop`) -/

/-- A slot as `Stop` observes it: the handle together with whether
`Close` has been called on it.  `maxminddb` `Reader.Close` is idempotent,
so closed-ness is a flag, not a counter. -/
structure CloseSlot where
  db : Option (Reader × Bool)

/-- The body of `Stop`'s per-slot loop: under the exclusive lock, close
the handle if one is present. -/
def CloseSlot.closeAll (s : CloseSlot) : CloseSlot :=
  { db := s.db.map (fun p => (p.1, true)) }

/-- The `GeoDB` state `Stop` acts on: whether `cancel` has been invoked,
whether the `updateLoop` goroutine is still running (`wg.Wait` returns
once it is not), and the three slots. -/
structure StopState where
  cancelled : Bool
  loopRunning : Bool
  country : CloseSlot
  cityIPv4 : CloseSlot
  cityIPv6 : CloseSlot

/-- `GeoDB.Stop`: cancel the update context (idempotent on an already
cancelled context), wait for the update goroutine to drain, then close
every slot's handle under its lock.  The function is total: the second
call finds the goroutine already stopped and `wg.Wait` returns at once. -/
def StopState.Stop (s : StopState) : StopState :=
  { cancelled := true
    loopRunning := false
    country := s.country.closeAll
    cityIPv4 := s.cityIPv4.closeAll
    cityIPv6 := s.cityIPv6.closeAll }

/-! ## Predicates and concrete states used by the theorems -/

/-- The query-level outcomes of §7 of the spec: `InvalidAddress`
(`ErrInvalidIP`), `NotFound` (`ErrIPNotFound`) and `NotReady` (a
database-not-loaded error). -/
def isQueryLevel : Err → Bool
  | .invalidIP => true
  | .ipNotFound => true
  | .notLoaded _ => true
  | _ => false

/-- A handle is well formed when its decode failures are decode errors
(what `maxminddb` `Decode` actually returns), never transport errors. -/
def wfReader (r : Reader) : Prop :=
  ∀ a e, r.decode a = .error e → ∃ m, e = .decodeErr m

/-- All handles installed in a `GeoDB` are well formed. -/
def wfGeoDB (g : GeoDB) : Prop :=
  (∀ r, g.country.db = some r → wfReader r) ∧
  (∀ r, g.cityIPv4.db = some r → wfReader r) ∧
  (∀ r, g.cityIPv6.db = some r → wfReader r)

/-- A slot is defunct when whatever handle it still holds is closed. -/
def slotClosed (c : CloseSlot) : Prop :=
  ∀ r b, c.db = some (r, b) → b = true

/-- A handle mapping every address to country code `US`. -/
def readerUS : Reader :=
  { decode := fun _ => .ok { country_code := "US" } }

/-- A handle decoding every address to a record with an empty country
code and postal code `10001` (a city record for an address outside the
database's country coverage). -/
def readerEmptyCC : Reader :=
  { decode := fun _ => .ok { country_code := "", postcode := "10001" } }

/-- A handle whose decode always fails. -/
def readerBoom : Reader :=
  { decode := fun _ => .error (.decodeErr "boom") }

/-- A manager whose city tier decodes an empty country code while the
country tier maps every address to `US`. -/
def gFallback : GeoDB :=
  { country := { db := some readerUS, path := "country.mmdb", url := "country-url" }
    cityIPv4 := { db := some readerEmptyCC, path := "city4.mmdb", url := "city4-url" }
    cityIPv6 := { db := some readerEmptyCC, path := "city6.mmdb", url := "city6-url" } }

/-- A freshly constructed manager, before `Start` has loaded anything. -/
def gNew : GeoDB :=
  New "country.mmdb" "country-url" "city4.mmdb" "city4-url" "city6.mmdb" "city6-url"

/-- A manager whose every handle fails to decode. -/
def gDecodeErr : GeoDB :=
  { country := { db := some readerBoom, path := "country.mmdb", url := "country-url" }
    cityIPv4 := { db := some readerBoom, path := "city4.mmdb", url := "city4-url" }
    cityIPv6 := { db := some readerBoom, path := "city6.mmdb", url := "city6-url" } }

/-- The country slot before any load. -/
def instCountry : DbInstance :=
  { db := none, path := "country.mmdb", url := "country-url" }

/-- A transport answering every fetch with status 201 Created and a
payload the codec accepts. -/
def env201 : Env :=
  { fetch := fun _ => .ok { status := 201, body := "payload", truncated := false }
    openDB := fun _ => .ok readerUS }

/-- A transport answering 200 with a payload the codec rejects. -/
def envBadPayload : Env :=
  { fetch := fun _ => .ok { status := 200, body := "garbage", truncated := false }
    openDB := fun _ => .error (.openErr "invalid MaxMind DB") }

/-- A codec accepting exactly the file content `mm`, with a transport
that always fails. -/
def envLoad : Env :=
  { fetch := fun _ => .error (.netErr "no route")
    openDB := fun c =>
      match c with
      | some s => if s = "mm" then .ok readerUS else .error (.openErr "bad format")
      | none => .error (.openErr "no such file") }

/-- A filesystem holding a valid database file at the country path. -/
def fsLoad : FS := [("country.mmdb", "mm")]

/-- A running manager state: update loop live, country handle open and
not yet closed. -/
def stopStart : StopState :=
  { cancelled := false
    loopRunning := true
    country := { db := some (readerUS, false) }
    cityIPv4 := { db := none }
    cityIPv6 := { db := none } }

/-! ## Helper lemmas -/

/-- The temporary download path never coincides with the final path. -/
theorem append_tmp_ne (s : String) : s ++ ".tmp" ≠ s := by
  intro h
  have hlen := congrArg String.length h
  have h4 : String.length ".tmp" = 4 := rfl
  rw [String.length_append, h4] at hlen
  omega

theorem FS.get_set_self : ∀ (fs : FS) (p v : String), (FS.set fs p v).get p = some v
  | [], p, v => by simp [FS.set, FS.get]
  | (k, w) :: rest, p, v => by
    by_cases h : k = p
    · simp [FS.set, FS.get, h]
    · simp [FS.set, FS.get, h, FS.get_set_self rest p v]

theorem FS.get_set_ne : ∀ (fs : FS) (p q v : String), p ≠ q →
    (FS.set fs p v).get q = fs.get q
  | [], p, q, v, h => by simp [FS.set, FS.get, h]
  | (k, w) :: rest, p, q, v, h => by
    by_cases hk : k = p
    · subst hk
      simp [FS.set, FS.get, h]
    · simp only [FS.set, if_neg hk, FS.get]
      by_cases hq : k = q
      · simp [hq]
      · simp [hq, FS.get_set_ne rest p q v h]

theorem FS.get_remove_ne : ∀ (fs : FS) (p q : String), p ≠ q →
    (FS.remove fs p).get q = fs.get q
  | [], p, q, h => by simp [FS.remove, FS.get]
  | (k, w) :: rest, p, q, h => by
    by_cases hk : k = p
    · subst hk
      simp [FS.remove, FS.get, h, FS.get_remove_ne rest k q h]
    · simp only [FS.remove, if_neg hk, FS.get]
      by_cases hq : k = q
      · simp [hq]
      · simp [hq, FS.get_remove_ne rest p q h]

/-- Removing a path leaves nothing at it. -/
theorem FS.get_remove_self : ∀ (fs : FS) (p : String), (FS.remove fs p).get p = none
  | [], p => by simp [FS.remove, FS.get]
  | (k, w) :: rest, p => by
    by_cases hk : k = p
    · simp [FS.remove, hk, FS.get_remove_self rest p]
    · simp [FS.remove, FS.get, hk, FS.get_remove_self rest p]

/-- `downloadDB`, transport failure branch. -/
theorem downloadDB_eq_netErr (env : Env) (fs : FS) (inst : DbInstance) (e : Err)
    (hf : env.fetch inst.url = .error e) :
    downloadDB env fs inst = (inst, fs, some e) := by
  unfold downloadDB
  rw [hf]

/-- `downloadDB`, non-200 status branch. -/
theorem downloadDB_eq_badStatus (env : Env) (fs : FS) (inst : DbInstance)
    (resp : HTTPResponse) (hf : env.fetch inst.url = .ok resp)
    (hs : resp.status ≠ 200) :
    downloadDB env fs inst = (inst, fs, some (.badStatus resp.status)) := by
  unfold downloadDB
  rw [hf]
  simp [hs]

/-- `downloadDB`, failed body copy branch: the partial temporary file is
removed. -/
theorem downloadDB_eq_truncated (env : Env) (fs : FS) (inst : DbInstance)
    (resp : HTTPResponse) (hf : env.fetch inst.url = .ok resp)
    (hs : resp.status = 200) (ht : resp.truncated = true) :
    downloadDB env fs inst =
      (inst, (fs.set (inst.path ++ ".tmp") resp.body).remove (inst.path ++ ".tmp"),
       some (.copyErr "copy failed")) := by
  unfold downloadDB
  rw [hf]
  simp [hs, ht]

/-- `downloadDB`, failed validation branch: the temporary file is removed
and the error is wrapped as an invalid download. -/
theorem downloadDB_eq_invalid (env : Env) (fs : FS) (inst : DbInstance)
    (resp : HTTPResponse) (e : Err) (hf : env.fetch inst.url = .ok resp)
    (hs : resp.status = 200) (ht : resp.truncated = false)
    (ho : env.openDB (some resp.body) = .error e) :
    downloadDB env fs inst =
      (inst, (fs.set (inst.path ++ ".tmp") resp.body).remove (inst.path ++ ".tmp"),
       some (.invalidDownload e)) := by
  unfold downloadDB
  rw [hf]
  simp [hs, ht, FS.get_set_self fs (inst.path ++ ".tmp") resp.body, ho]

/-- `downloadDB`, success branch: the validated temporary file is renamed
over the final path. -/
theorem downloadDB_eq_ok (env : Env) (fs : FS) (inst : DbInstance)
    (resp : HTTPResponse) (t : Reader) (hf : env.fetch inst.url = .ok resp)
    (hs : resp.status = 200) (ht : resp.truncated = false)
    (ho : env.openDB (some resp.body) = .ok t) :
    downloadDB env fs inst =
      (inst, (fs.set (inst.path ++ ".tmp") resp.body).rename
        (inst.path ++ ".tmp") inst.path, none) := by
  unfold downloadDB
  rw [hf]
  simp [hs, ht, FS.get_set_self fs (inst.path ++ ".tmp") resp.body, ho]

/-- `downloadDB` never modifies the slot record (in particular never the
handle). -/
theorem downloadDB_fst (env : Env) (fs : FS) (inst : DbInstance) :
    (downloadDB env fs inst).1 = inst := by
  cases hf : env.fetch inst.url with
  | error e => rw [downloadDB_eq_netErr env fs inst e hf]
  | ok resp =>
    by_cases hs : resp.status = 200
    · cases ht : resp.truncated with
      | true => rw [downloadDB_eq_truncated env fs inst resp hf hs ht]
      | false =>
        cases ho : env.openDB (some resp.body) with
        | error e => rw [downloadDB_eq_invalid env fs inst resp e hf hs ht ho]
        | ok t => rw [downloadDB_eq_ok env fs inst resp t hf hs ht ho]
    · rw [downloadDB_eq_badStatus env fs inst resp hf hs]

/-- On any failure, `downloadDB` leaves the content of the final path
untouched. -/
theorem downloadDB_fail_path (env : Env) (fs : FS) (inst : DbInstance) (e : Err)
    (h : (downloadDB env fs inst).2.2 = some e) :
    (downloadDB env fs inst).2.1.get inst.path = fs.get inst.path := by
  have htmp : inst.path ++ ".tmp" ≠ inst.path := append_tmp_ne inst.path
  cases hf : env.fetch inst.url with
  | error e2 => rw [downloadDB_eq_netErr env fs inst e2 hf]
  | ok resp =>
    by_cases hs : resp.status = 200
    · cases ht : resp.truncated with
      | true =>
        rw [downloadDB_eq_truncated env fs inst resp hf hs ht]
        exact (FS.get_remove_ne _ _ _ htmp).trans (FS.get_set_ne _ _ _ _ htmp)
      | false =>
        cases ho : env.openDB (some resp.body) with
        | error e2 =>
          rw [downloadDB_eq_invalid env fs inst resp e2 hf hs ht ho]
          exact (FS.get_remove_ne _ _ _ htmp).trans (FS.get_set_ne _ _ _ _ htmp)
        | ok t =>
          rw [downloadDB_eq_ok env fs inst resp t hf hs ht ho] at h
          simp at h
    · rw [downloadDB_eq_badStatus env fs inst resp hf hs]

/-- `downloadDB` fails exactly when `downloadFails` says so: the failure
condition depends only on the environment and the slot's URL. -/
theorem downloadDB_fails_iff (env : Env) (fs : FS) (inst : DbInstance) :
    ((downloadDB env fs inst).2.2).isSome = downloadFails env inst.url := by
  cases hf : env.fetch inst.url with
  | error e =>
    rw [downloadDB_eq_netErr env fs inst e hf]
    simp [downloadFails, hf]
  | ok resp =>
    by_cases hs : resp.status = 200
    · cases ht : resp.truncated with
      | true =>
        rw [downloadDB_eq_truncated env fs inst resp hf hs ht]
        simp [downloadFails, hf, hs, ht]
      | false =>
        cases ho : env.openDB (some resp.body) with
        | error e =>
          rw [downloadDB_eq_invalid env fs inst resp e hf hs ht ho]
          simp [downloadFails, hf, hs, ht, ho]
        | ok t =>
          rw [downloadDB_eq_ok env fs inst resp t hf hs ht ho]
          simp [downloadFails, hf, hs, ht, ho]
    · rw [downloadDB_eq_badStatus env fs inst resp hf hs]
      simp [downloadFails, hf, hs]

/-- When its download fails, a slot's refresh step leaves the slot (and
so its handle) exactly as it was, and reports the failure. -/
theorem refreshSlot_download_fail (env : Env) (fs : FS) (inst : DbInstance)
    (h : downloadFails env inst.url = true) :
    (refreshSlot env fs inst).1 = inst ∧
      ((refreshSlot env fs inst).2.2).isSome = true := by
  have hiff := downloadDB_fails_iff env fs inst
  have hfst := downloadDB_fst env fs inst
  rw [h] at hiff
  rcases hd : downloadDB env fs inst with ⟨i1, f1, o⟩
  rw [hd] at hiff hfst
  cases o with
  | none => simp at hiff
  | some e =>
    simp only at hfst
    subst hfst
    simp [refreshSlot, hd]

/-- When the fetch delivers a 200, untruncated body the codec accepts,
the refresh step installs the handle opened from that body. -/
theorem refreshSlot_ok (env : Env) (fs : FS) (inst : DbInstance)
    (resp : HTTPResponse) (r : Reader)
    (hf : env.fetch inst.url = .ok resp) (hs : resp.status = 200)
    (ht : resp.truncated = false) (ho : env.openDB (some resp.body) = .ok r) :
    (refreshSlot env fs inst).1 = { inst with db := some r } ∧
      (refreshSlot env fs inst).2.2 = none := by
  have hdl := downloadDB_eq_ok env fs inst resp r hf hs ht ho
  have hget : ((FS.set fs (inst.path ++ ".tmp") resp.body).rename
      (inst.path ++ ".tmp") inst.path).get inst.path = some resp.body := by
    unfold FS.rename
    rw [FS.get_set_self fs (inst.path ++ ".tmp") resp.body]
    exact FS.get_set_self _ _ _
  have hload : loadDB env ((FS.set fs (inst.path ++ ".tmp") resp.body).rename
      (inst.path ++ ".tmp") inst.path) inst =
      ({ inst with db := some r },
       .swapped inst.db r :: (match inst.db with | some o => [.closed o] | none => []),
       none) := by
    unfold loadDB
    rw [hget, ho]
  simp [refreshSlot, hdl, hload]

/-- A result `lookupCountry` hands back always carries a non-empty
country code. -/
theorem lookupCountry_ok_cc (g : GeoDB) (a : Addr) (res : LookupResult)
    (h : g.lookupCountry a = .ok res) : res.country_code ≠ "" := by
  cases hdb : g.country.db with
  | none => simp [GeoDB.lookupCountry, hdb] at h
  | some db =>
    cases hdec : db.decodeCountry a with
    | error e => simp [GeoDB.lookupCountry, hdb, hdec] at h
    | ok rec =>
      by_cases hcc : rec.country_code = ""
      · simp [GeoDB.lookupCountry, hdb, hdec, hcc] at h
      · simp only [GeoDB.lookupCountry, hdb, hdec, if_neg hcc, Except.ok.injEq] at h
        rw [← h]
        exact hcc

/-- A result `lookupCity` hands back always carries a non-empty country
code. -/
theorem lookupCity_ok_cc (g : GeoDB) (a : Addr) (res : LookupResult)
    (h : g.lookupCity a = .ok res) : res.country_code ≠ "" := by
  cases hdb : (if a.is4 then g.cityIPv4 else g.cityIPv6).db with
  | none => simp [GeoDB.lookupCity, hdb] at h
  | some db =>
    cases hdec : db.decodeCity a with
    | error e => simp [GeoDB.lookupCity, hdb, hdec] at h
    | ok rec =>
      by_cases hcc : rec.country_code = ""
      · simp [GeoDB.lookupCity, hdb, hdec, hcc] at h
      · simp only [GeoDB.lookupCity, hdb, hdec, if_neg hcc, Except.ok.injEq] at h
        rw [← h]
        exact hcc

/-- Every error `lookupCountry` can return: not loaded, not found, or a
wrapped decode failure. -/
theorem lookupCountry_err_shape (g : GeoDB) (a : Addr) (e : Err)
    (hwf : ∀ r, g.country.db = some r → wfReader r)
    (h : g.lookupCountry a = .error e) :
    e = .notLoaded "country" ∨ e = .ipNotFound ∨
      ∃ m, e = .lookupFailed (.decodeErr m) := by
  cases hdb : g.country.db with
  | none =>
    have hv : g.lookupCountry a = .error (.notLoaded "country") := by
      simp [GeoDB.lookupCountry, hdb]
    rw [hv] at h
    injection h with h2
    exact Or.inl h2.symm
  | some db =>
    cases hdec : db.decode a with
    | error e0 =>
      obtain ⟨m, hm⟩ := hwf db hdb a e0 hdec
      subst hm
      have hv : g.lookupCountry a = .error (.lookupFailed (.decodeErr m)) := by
        simp [GeoDB.lookupCountry, hdb, Reader.decodeCountry, hdec, Except.map]
      rw [hv] at h
      injection h with h2
      exact Or.inr (Or.inr ⟨m, h2.symm⟩)
    | ok m =>
      by_cases hcc : m.country_code = ""
      · have hv : g.lookupCountry a = .error .ipNotFound := by
          simp [GeoDB.lookupCountry, hdb, Reader.decodeCountry, hdec, Except.map, hcc]
        rw [hv] at h
        injection h with h2
        exact Or.inr (Or.inl h2.symm)
      · have hv : g.lookupCountry a = .ok { country_code := m.country_code } := by
          simp [GeoDB.lookupCountry, hdb, Reader.decodeCountry, hdec, Except.map, hcc]
        rw [hv] at h
        exact absurd h (by simp)

/-- Every error `lookupCity` can return: not loaded, not found, or a
wrapped decode failure. -/
theorem lookupCity_err_shape (g : GeoDB) (a : Addr) (e : Err)
    (hwf : ∀ r, (if a.is4 then g.cityIPv4 else g.cityIPv6).db = some r → wfReader r)
    (h : g.lookupCity a = .error e) :
    e = .notLoaded "city" ∨ e = .ipNotFound ∨
      ∃ m, e = .lookupFailed (.decodeErr m) := by
  cases hdb : (if a.is4 then g.cityIPv4 else g.cityIPv6).db with
  | none =>
    have hv : g.lookupCity a = .error (.notLoaded "city") := by
      simp [GeoDB.lookupCity, hdb]
    rw [hv] at h
    injection h with h2
    exact Or.inl h2.symm
  | some db =>
    cases hdec : db.decode a with
    | error e0 =>
      obtain ⟨m, hm⟩ := hwf db hdb a e0 hdec
      subst hm
      have hv : g.lookupCity a = .error (.lookupFailed (.decodeErr m)) := by
        simp [GeoDB.lookupCity, hdb, Reader.decodeCity, hdec, Except.map]
      rw [hv] at h
      injection h with h2
      exact Or.inr (Or.inr ⟨m, h2.symm⟩)
    | ok m =>
      by_cases hcc : m.country_code = ""
      · have hv : g.lookupCity a = .error .ipNotFound := by
          simp [GeoDB.lookupCity, hdb, Reader.decodeCity, hdec, Except.map, hcc]
        rw [hv] at h
        injection h with h2
        exact Or.inr (Or.inl h2.symm)
      · have hv : g.lookupCity a =
            .ok { country_code := m.country_code, postal_code := m.postcode } := by
          simp [GeoDB.lookupCity, hdb, Reader.decodeCity, hdec, Except.map, hcc]
        rw [hv] at h
        exact absurd h (by simp)

/-- Closing an already closed slot changes nothing. -/
theorem closeAll_idem (c : CloseSlot) : c.closeAll.closeAll = c.closeAll := by
  cases hdb : c.db with
  | none => simp [CloseSlot.closeAll, hdb]
  | some p => simp [CloseSlot.closeAll, hdb]

/-- After `closeAll`, the slot's handle (if any) is closed. -/
theorem closeAll_closed (c : CloseSlot) : slotClosed c.closeAll := by
  intro r b h
  cases hdb : c.db with
  | none => simp [CloseSlot.closeAll, hdb] at h
  | some p =>
    simp [CloseSlot.closeAll, hdb] at h
    exact h.2

/-! ## Claim theorems -/

/-- Claim C1: `Lookup` applies the two-tier fallback in the stated order.
With `preferCity` set the city-tier slot (chosen by address family inside
`lookupCity`) is attempted first and control falls through to the country
tier when the city attempt yields `NotFound` (which is also what an
empty-country-code record produces); with `preferCity` unset the order is
reversed.  The first slot producing a record — necessarily with a
non-empty country code — determines the result, and when both tiers yield
`NotFound` the result is `NotFound`.  In particular, with the city slot
decoding an empty country code and the country slot mapping the address
to `US`, `Lookup(A, true)` is `{country_code := "US"}` with no postal
code. -/
theorem lookup_fallback_policy (g : GeoDB) (s : String) (a : Addr)
    (hp : parseAddr s = some a) :
    (∀ r, g.lookupCity a = .ok r → g.Lookup s true = .ok r ∧ r.country_code ≠ "") ∧
    (g.lookupCity a = .error .ipNotFound → g.Lookup s true = g.lookupCountry a) ∧
    (g.lookupCity a = .error .ipNotFound → g.lookupCountry a = .error .ipNotFound →
      g.Lookup s true = .error .ipNotFound) ∧
    (∀ r, g.lookupCountry a = .ok r → g.Lookup s false = .ok r ∧ r.country_code ≠ "") ∧
    (g.lookupCountry a = .error .ipNotFound → g.Lookup s false = g.lookupCity a) ∧
    (g.lookupCountry a = .error .ipNotFound → g.lookupCity a = .error .ipNotFound →
      g.Lookup s false = .error .ipNotFound) ∧
    gFallback.Lookup "1.2.3.4" true = .ok { country_code := "US", postal_code := "" } := by
  refine ⟨?_, ?_, ?_, ?_, ?_, ?_, ?_⟩
  · intro r h
    exact ⟨by simp [GeoDB.Lookup, hp, h], lookupCity_ok_cc g a r h⟩
  · intro h
    simp [GeoDB.Lookup, hp, h]
  · intro h1 h2
    simp [GeoDB.Lookup, hp, h1, h2]
  · intro r h
    exact ⟨by simp [GeoDB.Lookup, hp, h], lookupCountry_ok_cc g a r h⟩
  · intro h
    simp [GeoDB.Lookup, hp, h]
  · intro h1 h2
    simp [GeoDB.Lookup, hp, h1, h2]
  · decide

/-- Witness for C1 at the concrete two-tier state. -/
theorem lookup_fallback_policy_witness :
    gFallback.Lookup "1.2.3.4" true = .ok { country_code := "US", postal_code := "" } :=
  (lookup_fallback_policy gFallback "1.2.3.4" { is4 := true, bytes := [1, 2, 3, 4] }
    (by decide)).2.2.2.2.2.2

/-- Claim C7: a successful decode yielding an empty country code is
treated exactly as an absent address — each tier returns `ErrIPNotFound`
and the record never reaches the caller — and consequently every result
`Lookup` returns carries a non-empty country code. -/
theorem empty_country_code_not_found (g : GeoDB) (a : Addr) (r : Reader) (m : MMRecord) :
    (g.country.db = some r → r.decode a = .ok m → m.country_code = "" →
      g.lookupCountry a = .error .ipNotFound) ∧
    ((if a.is4 then g.cityIPv4 else g.cityIPv6).db = some r → r.decode a = .ok m →
      m.country_code = "" → g.lookupCity a = .error .ipNotFound) ∧
    (∀ s useCity res, g.Lookup s useCity = .ok res → res.country_code ≠ "") := by
  refine ⟨?_, ?_, ?_⟩
  · intro hdb hdec hcc
    simp [GeoDB.lookupCountry, hdb, Reader.decodeCountry, hdec, Except.map, hcc]
  · intro hdb hdec hcc
    simp [GeoDB.lookupCity, hdb, Reader.decodeCity, hdec, Except.map, hcc]
  · intro s useCity res h
    cases hp : parseAddr s with
    | none => simp [GeoDB.Lookup, hp] at h
    | some ip =>
      cases useCity with
      | true =>
        simp only [GeoDB.Lookup, hp, if_true] at h
        cases hc : g.lookupCity ip with
        | ok r1 =>
          rw [hc] at h
          simp only [Except.ok.injEq] at h
          exact h ▸ lookupCity_ok_cc g ip r1 hc
        | error e =>
          rw [hc] at h
          exact lookupCountry_ok_cc g ip res h
      | false =>
        simp only [GeoDB.Lookup, hp, Bool.false_eq_true, if_false] at h
        cases hc : g.lookupCountry ip with
        | ok r1 =>
          rw [hc] at h
          simp only [Except.ok.injEq] at h
          exact h ▸ lookupCountry_ok_cc g ip r1 hc
        | error e =>
          rw [hc] at h
          exact lookupCity_ok_cc g ip res h

/-- Witness for C7: the city tier of the concrete two-tier state decodes
an empty country code for 1.2.3.4 and reports `ErrIPNotFound`. -/
theorem empty_country_code_not_found_witness :
    gFallback.lookupCity { is4 := true, bytes := [1, 2, 3, 4] } = .error .ipNotFound :=
  (empty_country_code_not_found gFallback { is4 := true, bytes := [1, 2, 3, 4] }
      readerEmptyCC { country_code := "", postcode := "10001" }).2.1
    rfl rfl rfl

/-- Claim C10 (implicit): whatever error the first-attempted tier fails
with — not loaded, decode failure, or not found — `Lookup` proceeds to
the other tier: its outcome is exactly the second tier's outcome, so a
fallback success silently masks the first tier's error and on double
failure the caller sees the second tier's error. -/
theorem fallback_masks_first_tier (g : GeoDB) (s : String) (a : Addr) (e : Err)
    (hp : parseAddr s = some a) :
    (g.lookupCity a = .error e → g.Lookup s true = g.lookupCountry a) ∧
    (g.lookupCountry a = .error e → g.Lookup s false = g.lookupCity a) ∧
    (∀ res, g.lookupCity a = .error e → g.lookupCountry a = .ok res →
      g.Lookup s true = .ok res) ∧
    (∀ e2, g.lookupCity a = .error e → g.lookupCountry a = .error e2 →
      g.Lookup s true = .error e2) ∧
    (∀ res, g.lookupCountry a = .error e → g.lookupCity a = .ok res →
      g.Lookup s false = .ok res) ∧
    (∀ e2, g.lookupCountry a = .error e → g.lookupCity a = .error e2 →
      g.Lookup s false = .error e2) := by
  refine ⟨?_, ?_, ?_, ?_, ?_, ?_⟩
  · intro h
    simp [GeoDB.Lookup, hp, h]
  · intro h
    simp [GeoDB.Lookup, hp, h]
  · intro res h1 h2
    simp [GeoDB.Lookup, hp, h1, h2]
  · intro e2 h1 h2
    simp [GeoDB.Lookup, hp, h1, h2]
  · intro res h1 h2
    simp [GeoDB.Lookup, hp, h1, h2]
  · intro e2 h1 h2
    simp [GeoDB.Lookup, hp, h1, h2]

/-- Witness for C10: with the city tier failing on 1.2.3.4, the lookup's
outcome is the country tier's outcome. -/
theorem fallback_masks_first_tier_witness :
    gFallback.Lookup "1.2.3.4" true =
      gFallback.lookupCountry { is4 := true, bytes := [1, 2, 3, 4] } :=
  (fallback_masks_first_tier gFallback "1.2.3.4" { is4 := true, bytes := [1, 2, 3, 4] }
    .ipNotFound (by decide)).1 (by decide)

/-- Counterexample to C2 as stated: a `Lookup` issued before `Start`
completes does NOT always return `NotReady` — an unparseable input
returns `ErrInvalidIP`, which is neither of the two not-loaded errors. -/
theorem lookup_before_start_invalid_counterexample :
    gNew.Lookup "not-an-ip" false = .error .invalidIP ∧
    Err.invalidIP ≠ .notLoaded "country" ∧ Err.invalidIP ≠ .notLoaded "city" := by
  refine ⟨by decide, by decide, by decide⟩

/-- Claim C2 (amended): a slot with no completed load makes its tier
return the not-loaded error — distinct from `ErrIPNotFound` — and every
`Lookup` of a parseable address issued before `Start` completes returns
the not-loaded error of the tier attempted second (never blocking: the
function is total); an unparseable input returns `ErrInvalidIP` even
before `Start`. -/
theorem lookup_before_start_notReady (cp cu p4 u4 p6 u6 s : String)
    (useCity : Bool) (a : Addr) (hp : parseAddr s = some a) :
    (New cp cu p4 u4 p6 u6).Lookup s useCity =
      .error (.notLoaded (if useCity then "country" else "city")) ∧
    (∀ (g : GeoDB) (ip : Addr), g.country.db = none →
      g.lookupCountry ip = .error (.notLoaded "country")) ∧
    (∀ (g : GeoDB) (ip : Addr), (if ip.is4 then g.cityIPv4 else g.cityIPv6).db = none →
      g.lookupCity ip = .error (.notLoaded "city")) ∧
    (Err.notLoaded "country" ≠ .ipNotFound) ∧ (Err.notLoaded "city" ≠ .ipNotFound) := by
  refine ⟨?_, ?_, ?_, by decide, by decide⟩
  · cases useCity with
    | true =>
      cases h4 : a.is4 with
      | true =>
        simp [GeoDB.Lookup, hp, New, GeoDB.lookupCity, GeoDB.lookupCountry, h4]
      | false =>
        simp [GeoDB.Lookup, hp, New, GeoDB.lookupCity, GeoDB.lookupCountry, h4]
    | false =>
      cases h4 : a.is4 with
      | true =>
        simp [GeoDB.Lookup, hp, New, GeoDB.lookupCity, GeoDB.lookupCountry, h4]
      | false =>
        simp [GeoDB.Lookup, hp, New, GeoDB.lookupCity, GeoDB.lookupCountry, h4]
  · intro g ip h
    simp [GeoDB.lookupCountry, h]
  · intro g ip h
    simp [GeoDB.lookupCity, h]

/-- Witness for amended C2: before `Start`, a city-preferring lookup of a
well-formed address reports the country tier's not-loaded error. -/
theorem lookup_before_start_notReady_witness :
    gNew.Lookup "8.8.8.8" true = .error (.notLoaded "country") := by
  have h := (lookup_before_start_notReady "country.mmdb" "country-url" "city4.mmdb"
    "city4-url" "city6.mmdb" "city6-url" "8.8.8.8" true
    { is4 := true, bytes := [8, 8, 8, 8] } (by decide)).1
  simpa [gNew] using h

/-- Counterexample to C3 as stated: when both tiers' decoders fail, the
error `Lookup` returns is the wrapped decode failure — not one of the
three query-level outcomes InvalidAddress, NotFound, NotReady. -/
theorem lookup_decode_error_counterexample :
    gDecodeErr.Lookup "8.8.8.8" false = .error (.lookupFailed (.decodeErr "boom")) ∧
    isQueryLevel (.lookupFailed (.decodeErr "boom")) = false := by
  refine ⟨by decide, rfl⟩

/-- Claim C3 (amended): with well-formed decoders, every error `Lookup`
returns is a query-level outcome (`ErrInvalidIP`, `ErrIPNotFound`, or a
not-loaded error) or a decoder failure wrapped as `lookup failed`; a
transport error is never among them — the lookup path performs no
network operation. -/
theorem lookup_error_taxonomy (g : GeoDB) (s : String) (useCity : Bool) (e : Err)
    (hwf : wfGeoDB g) (h : g.Lookup s useCity = .error e) :
    isQueryLevel e = true ∨ ∃ m, e = .lookupFailed (.decodeErr m) := by
  cases hp : parseAddr s with
  | none =>
    have hv : g.Lookup s useCity = .error .invalidIP := by simp [GeoDB.Lookup, hp]
    rw [hv] at h
    injection h with h2
    rw [← h2]
    exact Or.inl rfl
  | some ip =>
    have hcitywf : ∀ r, (if ip.is4 then g.cityIPv4 else g.cityIPv6).db = some r →
        wfReader r := by
      cases h4 : ip.is4 with
      | true => simpa using hwf.2.1
      | false => simpa using hwf.2.2
    cases useCity with
    | true =>
      cases hc : g.lookupCity ip with
      | ok r1 =>
        have hv : g.Lookup s true = .ok r1 := by simp [GeoDB.Lookup, hp, hc]
        rw [hv] at h
        exact absurd h (by simp)
      | error e1 =>
        have hv : g.Lookup s true = g.lookupCountry ip := by simp [GeoDB.Lookup, hp, hc]
        rw [hv] at h
        rcases lookupCountry_err_shape g ip e hwf.1 h with h1 | h1 | ⟨m, h1⟩
        · exact Or.inl (by rw [h1]; rfl)
        · exact Or.inl (by rw [h1]; rfl)
        · exact Or.inr ⟨m, h1⟩
    | false =>
      cases hc : g.lookupCountry ip with
      | ok r1 =>
        have hv : g.Lookup s false = .ok r1 := by simp [GeoDB.Lookup, hp, hc]
        rw [hv] at h
        exact absurd h (by simp)
      | error e1 =>
        have hv : g.Lookup s false = g.lookupCity ip := by simp [GeoDB.Lookup, hp, hc]
        rw [hv] at h
        rcases lookupCity_err_shape g ip e hcitywf h with h1 | h1 | ⟨m, h1⟩
        · exact Or.inl (by rw [h1]; rfl)
        · exact Or.inl (by rw [h1]; rfl)
        · exact Or.inr ⟨m, h1⟩

/-- Witness for amended C3 at the fresh manager: its (absent) handles are
vacuously well formed, and the pre-load error is query-level. -/
theorem lookup_error_taxonomy_witness :
    isQueryLevel (.notLoaded "country") = true ∨
      ∃ m, Err.notLoaded "country" = .lookupFailed (.decodeErr m) :=
  lookup_error_taxonomy gNew "8.8.8.8" true (.notLoaded "country")
    ⟨fun r hr => by simp [gNew, New] at hr,
     fun r hr => by simp [gNew, New] at hr,
     fun r hr => by simp [gNew, New] at hr⟩
    (by decide)

/-- Claim C4: every failing `downloadDB` — transport error, non-success
status, truncated copy, or payload failing validation-by-open — leaves
the slot record (hence its in-memory handle) and the content of the
final on-disk path unchanged, so a subsequent lookup against that slot
behaves identically to before the failed attempt. -/
theorem download_failure_preserves_slot (env : Env) (fs : FS)
    (inst inst2 : DbInstance) (fs2 : FS) (e : Err)
    (h : downloadDB env fs inst = (inst2, fs2, some e)) :
    inst2 = inst ∧ fs2.get inst.path = fs.get inst.path ∧
    (∀ (g : GeoDB) (a : Addr),
      ({ g with country := inst2 } : GeoDB).lookupCountry a =
        ({ g with country := inst } : GeoDB).lookupCountry a) := by
  have h0 := downloadDB_fst env fs inst
  rw [h] at h0
  have h1 : inst2 = inst := h0
  have h3 := downloadDB_fail_path env fs inst e (by rw [h])
  rw [h] at h3
  have h2 : fs2.get inst.path = fs.get inst.path := h3
  exact ⟨h1, h2, fun g a => by rw [h1]⟩

/-- Witness for C4: a 201 response fails the download and leaves the
empty filesystem and the unloaded country slot untouched. -/
theorem download_failure_preserves_slot_witness :
    instCountry = instCountry ∧
      FS.get [] instCountry.path = FS.get [] instCountry.path :=
  ⟨(download_failure_preserves_slot env201 [] instCountry instCountry []
      (.badStatus 201) rfl).1,
   (download_failure_preserves_slot env201 [] instCountry instCountry []
      (.badStatus 201) rfl).2.1⟩

/-- Counterexample to C5 as stated: status 201 lies in the 2xx range,
yet `downloadDB` does not proceed to write and validate the payload — it
fails at once with the status error, leaving the filesystem untouched
(nothing was written to the temporary path). -/
theorem download_rejects_2xx_counterexample :
    downloadDB env201 [] instCountry = (instCountry, [], some (.badStatus 201)) ∧
    200 ≤ 201 ∧ 201 < 300 :=
  ⟨rfl, by decide, by decide⟩

/-- Claim C5 (amended): `downloadDB` treats exactly the statuses other
than 200 OK as failure: any response with status ≠ 200 — other 2xx codes
included — fails with the status error without touching any file, while
a 200 response proceeds to write and validate the payload, discarding
the temporary file and leaving the final path unchanged when validation
fails, and committing the body to the final path when it succeeds. -/
theorem download_status_gate (env : Env) (fs : FS) (inst : DbInstance)
    (resp : HTTPResponse) (hf : env.fetch inst.url = .ok resp) :
    (resp.status ≠ 200 →
      downloadDB env fs inst = (inst, fs, some (.badStatus resp.status))) ∧
    (resp.status = 200 → resp.truncated = false →
      (∀ e, env.openDB (some resp.body) = .error e →
        downloadDB env fs inst =
          (inst, (fs.set (inst.path ++ ".tmp") resp.body).remove (inst.path ++ ".tmp"),
           some (.invalidDownload e)) ∧
        ((fs.set (inst.path ++ ".tmp") resp.body).remove
            (inst.path ++ ".tmp")).get inst.path = fs.get inst.path ∧
        ((fs.set (inst.path ++ ".tmp") resp.body).remove
            (inst.path ++ ".tmp")).get (inst.path ++ ".tmp") = none) ∧
      (∀ t, env.openDB (some resp.body) = .ok t →
        (downloadDB env fs inst).2.2 = none ∧
        (downloadDB env fs inst).2.1.get inst.path = some resp.body)) := by
  have htmp : inst.path ++ ".tmp" ≠ inst.path := append_tmp_ne inst.path
  refine ⟨?_, ?_⟩
  · intro hs
    exact downloadDB_eq_badStatus env fs inst resp hf hs
  · intro hs ht
    refine ⟨?_, ?_⟩
    · intro e ho
      refine ⟨downloadDB_eq_invalid env fs inst resp e hf hs ht ho, ?_, ?_⟩
      · exact (FS.get_remove_ne _ _ _ htmp).trans (FS.get_set_ne _ _ _ _ htmp)
      · exact FS.get_remove_self _ _
    · intro t ho
      rw [downloadDB_eq_ok env fs inst resp t hf hs ht ho]
      refine ⟨rfl, ?_⟩
      show ((FS.set fs (inst.path ++ ".tmp") resp.body).rename
        (inst.path ++ ".tmp") inst.path).get inst.path = some resp.body
      unfold FS.rename
      rw [FS.get_set_self fs (inst.path ++ ".tmp") resp.body]
      exact FS.get_set_self _ _ _

/-- Witness for amended C5: a 200 response whose payload the codec
rejects — the temporary file is discarded and the failure is reported as
an invalid download. -/
theorem download_status_gate_witness :
    downloadDB envBadPayload [] instCountry =
      (instCountry,
       FS.remove (FS.set [] (instCountry.path ++ ".tmp") "garbage")
         (instCountry.path ++ ".tmp"),
       some (.invalidDownload (.openErr "invalid MaxMind DB"))) :=
  (((download_status_gate envBadPayload [] instCountry
      { status := 200, body := "garbage", truncated := false } rfl).2 rfl rfl).1
    (.openErr "invalid MaxMind DB") rfl).1

/-- Claim C6: a failing `loadDB` (the codec rejects the file at the
slot's path — absent, truncated, or unrecognized) leaves the slot — and
so its serving handle — unchanged and closes nothing; a successful
`loadDB` replaces the handle and closes the displaced one exactly once,
after the swap, as the event list records. -/
theorem load_swap_close_discipline (env : Env) (fs : FS) (inst : DbInstance) :
    (∀ e, env.openDB (fs.get inst.path) = .error e →
      loadDB env fs inst = (inst, [], some e)) ∧
    (∀ newDb old, env.openDB (fs.get inst.path) = .ok newDb → inst.db = some old →
      loadDB env fs inst =
        ({ inst with db := some newDb },
         [.swapped (some old) newDb, .closed old], none)) ∧
    (∀ newDb, env.openDB (fs.get inst.path) = .ok newDb → inst.db = none →
      loadDB env fs inst = ({ inst with db := some newDb }, [.swapped none newDb], none)) := by
  refine ⟨?_, ?_, ?_⟩
  · intro e h
    unfold loadDB
    rw [h]
  · intro newDb old h hdb
    unfold loadDB
    rw [h, hdb]
  · intro newDb h hdb
    unfold loadDB
    rw [h, hdb]

/-- Witness for C6: loading a valid file over a live handle swaps the
new handle in and closes the old one once, after the swap. -/
theorem load_swap_close_discipline_witness :
    loadDB envLoad fsLoad { db := some readerBoom, path := "country.mmdb", url := "u" } =
      ({ db := some readerUS, path := "country.mmdb", url := "u" },
       [.swapped (some readerBoom) readerUS, .closed readerBoom], none) :=
  (load_swap_close_discipline envLoad fsLoad
      { db := some readerBoom, path := "country.mmdb", url := "u" }).2.1
    readerUS readerBoom rfl rfl

/-- Claim C8: `Stop` is idempotent — a second `Stop` reproduces the end
state of the first (context cancelled, update loop drained, every slot's
handle closed, i.e. the slot defunct) — and being a total function the
second invocation neither blocks nor errors. -/
theorem stop_idempotent (s : StopState) :
    s.Stop.Stop = s.Stop ∧
    s.Stop.cancelled = true ∧ s.Stop.loopRunning = false ∧
    slotClosed s.Stop.country ∧ slotClosed s.Stop.cityIPv4 ∧ slotClosed s.Stop.cityIPv6 := by
  refine ⟨?_, rfl, rfl, ?_, ?_, ?_⟩
  · show StopState.Stop (StopState.Stop s) = StopState.Stop s
    unfold StopState.Stop
    simp [closeAll_idem]
  · exact closeAll_closed s.country
  · exact closeAll_closed s.cityIPv4
  · exact closeAll_closed s.cityIPv6

/-- Witness for C8 at a running state with one open handle. -/
theorem stop_idempotent_witness :
    stopStart.Stop.Stop = stopStart.Stop ∧ stopStart.Stop.loopRunning = false :=
  ⟨(stop_idempotent stopStart).1, (stop_idempotent stopStart).2.2.1⟩

/-- Claim C9: one ticker cycle attempts every configured slot in order —
country, city-ipv4, city-ipv6 — regardless of any outcome; a slot whose
download fails keeps its previous handle (its load is skipped) while the
failure is only logged; and a slot whose download and validation succeed
has the freshly opened handle installed, independent of the other slots'
outcomes. -/
theorem update_cycle_isolates_failures (env : Env) (fs : FS) (g : GeoDB) :
    ((updateCycle env fs g).2.2.map Prod.fst = ["country", "city-ipv4", "city-ipv6"]) ∧
    (downloadFails env g.country.url = true →
      (updateCycle env fs g).1.country = g.country) ∧
    (downloadFails env g.cityIPv4.url = true →
      (updateCycle env fs g).1.cityIPv4 = g.cityIPv4) ∧
    (downloadFails env g.cityIPv6.url = true →
      (updateCycle env fs g).1.cityIPv6 = g.cityIPv6) ∧
    (∀ resp r, env.fetch g.country.url = .ok resp → resp.status = 200 →
      resp.truncated = false → env.openDB (some resp.body) = .ok r →
      (updateCycle env fs g).1.country = { g.country with db := some r }) ∧
    (∀ resp r, env.fetch g.cityIPv4.url = .ok resp → resp.status = 200 →
      resp.truncated = false → env.openDB (some resp.body) = .ok r →
      (updateCycle env fs g).1.cityIPv4 = { g.cityIPv4 with db := some r }) ∧
    (∀ resp r, env.fetch g.cityIPv6.url = .ok resp → resp.status = 200 →
      resp.truncated = false → env.openDB (some resp.body) = .ok r →
      (updateCycle env fs g).1.cityIPv6 = { g.cityIPv6 with db := some r }) := by
  refine ⟨rfl, ?_, ?_, ?_, ?_, ?_, ?_⟩
  · intro h
    exact (refreshSlot_download_fail env fs g.country h).1
  · intro h
    exact (refreshSlot_download_fail env
      (refreshSlot env fs g.country).2.1 g.cityIPv4 h).1
  · intro h
    exact (refreshSlot_download_fail env
      (refreshSlot env (refreshSlot env fs g.country).2.1 g.cityIPv4).2.1 g.cityIPv6 h).1
  · intro resp r hf hs ht ho
    exact (refreshSlot_ok env fs g.country resp r hf hs ht ho).1
  · intro resp r hf hs ht ho
    exact (refreshSlot_ok env (refreshSlot env fs g.country).2.1 g.cityIPv4
      resp r hf hs ht ho).1
  · intro resp r hf hs ht ho
    exact (refreshSlot_ok env
      (refreshSlot env (refreshSlot env fs g.country).2.1 g.cityIPv4).2.1 g.cityIPv6
      resp r hf hs ht ho).1

/-- Witness for C9: with every fetch answering 201, each slot's refresh
fails and the cycle leaves the loaded two-tier state untouched. -/
theorem update_cycle_isolates_failures_witness :
    (updateCycle env201 [] gFallback).1.country = gFallback.country ∧
      (updateCycle env201 [] gFallback).2.2.map Prod.fst =
        ["country", "city-ipv4", "city-ipv6"] :=
  ⟨(update_cycle_isolates_failures env201 [] gFallback).2.1 rfl,
   (update_cycle_isolates_failures env201 [] gFallback).1⟩
